import Mathlib

/-!
Verification development for the Termo terminal client
(`src/Client/client.py`).  The Python class `Client` is embedded shallowly:

* pure helpers become Lean functions (`__return_attempts`,
  `__process_user_command`, `__format_output`);
* the mutable fields `__game_status`, `__words_stack`, `__user_name` become
  an explicit `ClientState` threaded through the response-handling step
  (`__handle_response_status`, `__render_response`,
  `__handle_successful_cases`, `__handle_error_cases`,
  `__game_continued_action`, `__connect_to_server`);
* terminal output, stack mutation and the end-of-round prompt are recorded
  as an explicit `Event` trace;
* Python exceptions (TypeError, KeyError, IndexError, AttributeError) and
  `sys.exit` become the `Outcome` component of a step result.

Python double-underscore names are kept, camel-cased, wherever Lean allows.
-/

namespace Termo

/-- Embeds the `GameStatus` enum of `client.py`. -/
inductive GameStatus
  | NO_GAME
  | GAME_IN_PROGRESS
  | GAME_FINISHED
deriving DecidableEq, Repr

/-- Python renders `None` in an f-string as the text `None`; `str(x)` of a
present string is the string itself. -/
def optDisplay : Option String → String
  | none => "None"
  | some s => s

/-- Concatenation of a list of strings, in order. -/
def concatAll : List String → String
  | [] => ""
  | s :: rest => s ++ concatAll rest

/-- Modelled from the spec: the Word History Stack is `utils.LinkedStack`,
whose file is not under `src/`; §4.2 describes a LIFO container of
pre-rendered strings with push, clear, size and a multi-line textual
rendering.  Entries are `Option String` because `client.py` line 418 can push
the `None` returned by `__format_output`.  The textual rendering lists the
entries most-recently-pushed first, one per line. -/
def stackRender (stack : List (Option String)) : String :=
  String.intercalate "\n" (stack.map optDisplay)

/-- Embeds `Client.__return_attempts` (client.py lines 262-275).  The Python
body evaluates `remaining_attempts >= 0`; when the argument is `None` that
comparison raises `TypeError`, modelled as `Except.error "TypeError"`.
`stackLen` stands for `len(self.__words_stack)`. -/
def returnAttempts (remaining_attempts : Option Int) (stackLen : Nat) : Except String String :=
  match remaining_attempts with
  | none => Except.error "TypeError"
  | some n =>
    if n ≥ 0 then Except.ok ("Tentativas Restantes: " ++ toString n)
    else Except.ok ("Número de tentativas até agora: " ++ toString stackLen)

/-- Embeds `Client.__process_user_command` (client.py lines 113-151).
`guessInput` stands for the string read by `input('Digite uma palavra: ')`
in the `'3'` branch; the raised `ValueError` becomes `Except.error`. -/
def processUserCommand (user_command : String) (game_status : GameStatus)
    (user_name : Option String) (guessInput : String) :
    Except String (String × Option String) :=
  if user_command = "1" then Except.ok ("start_game", user_name)
  else if user_command = "2" then Except.ok ("exit_game", none)
  else if user_command = "3" ∧ game_status = GameStatus.GAME_IN_PROGRESS then
    Except.ok ("check_word", some guessInput.toLower)
  else if user_command = "4" ∧ game_status = GameStatus.GAME_IN_PROGRESS then
    Except.ok ("list_words", none)
  else if user_command = "5" ∧ game_status = GameStatus.GAME_IN_PROGRESS then
    Except.ok ("restart_game", user_name)
  else Except.error ("Comando inválido:" ++ " " ++ user_command)

/-- One color-wrapped letter of `Client.__format_output` (client.py lines
344-350): encoding 2 uses the bright-green escape `\x1b[92m`, 1 the
bright-yellow `\x1b[93m`, anything else the dim-gray `\x1b[90m`, and each
letter is followed by the reset escape `\x1b[0m`. -/
def wrapLetter (c : Char) (code : Int) : String :=
  if code = 2 then "\x1b[92m" ++ String.singleton c ++ "\x1b[0m"
  else if code = 1 then "\x1b[93m" ++ String.singleton c ++ "\x1b[0m"
  else "\x1b[90m" ++ String.singleton c ++ "\x1b[0m"

/-- The loop body of `Client.__format_output` (client.py lines 344-352):
for each entry of `format_instructions` the word is indexed at the current
position; an out-of-range index raises `IndexError`, modelled as
`Except.error "IndexError"`. -/
def formatOutputAux (word : List Char) (fi : List Int) (index : Nat) : Except String String :=
  match fi with
  | [] => Except.ok ""
  | code :: rest =>
    match word.get? index with
    | none => Except.error "IndexError"
    | some c =>
      match formatOutputAux word rest (index + 1) with
      | Except.error e => Except.error e
      | Except.ok tail => Except.ok (wrapLetter c code ++ tail)

/-- Embeds `Client.__format_output` (client.py lines 331-354).  The Python
guard `if word and format_instructions` is falsy for `None`, the empty
string and the empty list, in which case the function returns `None`
(modelled `Except.ok none`). -/
def formatOutput (word : Option String) (format_instructions : Option (List Int)) :
    Except String (Option String) :=
  match word, format_instructions with
  | some w, some l =>
    if w ≠ "" ∧ l ≠ [] then
      match formatOutputAux w.toList l 0 with
      | Except.error e => Except.error e
      | Except.ok out => Except.ok (some out)
    else Except.ok none
  | _, _ => Except.ok none

/-- Outcome of one TCP connection attempt in `Client.__connect_to_server`;
a successful attempt carries the socket it produced (modelled as a `Nat`
handle). -/
inductive ConnectAttempt
  | failure
  | success (sock : Nat)
deriving DecidableEq, Repr

/-- The message of the `socket.error` raised by `__connect_to_server` after
exhausting its attempts (client.py line 64). -/
def connFailMsg : String :=
  "Não foi possível conectar ao servidor. Tente reiniciar o cliente."

/-- The retry loop of `Client.__connect_to_server` (client.py lines 51-64):
`outcomes i` is the result of the `i`-th connection attempt, `fuel` the
remaining loop iterations.  The result carries the number of attempts made
and the number of 5-second sleeps performed (one after each failure). -/
def connectGo (outcomes : Nat → ConnectAttempt) (i : Nat) (fuel : Nat) :
    Except String Nat × Nat × Nat :=
  match fuel with
  | 0 => (Except.error connFailMsg, 0, 0)
  | fuel + 1 =>
    match outcomes i with
    | ConnectAttempt.success sock => (Except.ok sock, 1, 0)
    | ConnectAttempt.failure =>
      let rest := connectGo outcomes (i + 1) fuel
      (rest.1, rest.2.1 + 1, rest.2.2 + 1)

/-- Embeds `Client.__connect_to_server` (client.py lines 37-64): a
`for _ in range(5)` loop around the attempt, then the fatal error. -/
def connectToServer (outcomes : Nat → ConnectAttempt) : Except String Nat × Nat × Nat :=
  connectGo outcomes 0 5

/-- Observable actions of the response-handling code: terminal prints,
word-history-stack mutations, the secret-word reveal animation, the score
table, the end-of-round prompt, and each send of the `continue_game`
request. -/
inductive Event
  | printed (s : String)
  | pushed (entry : Option String)
  | cleared
  | reveal (w : String)
  | scoreTable
  | endRoundPrompt
  | sentContinue
deriving DecidableEq, Repr

/-- How a step of the Python code ends: normal return, `sys.exit(0)`, or a
propagating Python exception (TypeError / KeyError / IndexError /
AttributeError), named by its message. -/
inductive Outcome
  | normal
  | exited
  | pyError (msg : String)
deriving DecidableEq, Repr

/-- The mutable fields of `Client` that the claims are about:
`__game_status`, `__words_stack` and `__user_name`. -/
structure ClientState where
  game_status : GameStatus
  words_stack : List (Option String)
  user_name : Option String
deriving DecidableEq, Repr

/-- Result of running a piece of the response-handling code: the state
after it, the events it emitted (in order), and how it ended. -/
structure StepOut where
  state : ClientState
  events : List Event
  outcome : Outcome
deriving DecidableEq, Repr

/-- The `**extra_info` keyword arguments passed to `__render_response`;
`dict.get` on a missing key and an explicit `None` value both read back as
`none`. -/
structure ExtraInfo where
  remaining_attempts : Option Int := none
  format_output : Option String := none
  secret_word : Option String := none
  player_name : Option String := none
  rounds_scores : Option (List (String × Int)) := none
  total_score : Option Int := none
deriving DecidableEq, Repr

/-- A decoded server response (`ResponseBody`).  Optional fields are absent
when the key is missing from the JSON object; scores are modelled as
integers since only their presence matters to the client logic. -/
structure ResponseData where
  status_code : Int
  remaining_attempts : Option Int := none
  word_encoded : Option (List Int) := none
  secret_word : Option String := none
  rounds_scores : Option (List (String × Int)) := none
  total_score : Option Int := none
deriving DecidableEq, Repr

/-- Embeds `Client.__render_score_table` (client.py lines 92-110) at the
level of detail the claims need: it renders a table, and calling it with
`rounds_scores = None` raises (`None.keys()` is an `AttributeError`). -/
def renderScoreTable (rounds_scores : Option (List (String × Int))) : Except String Unit :=
  match rounds_scores with
  | none => Except.error "AttributeError"
  | some _ => Except.ok ()

/-- The congratulation printed for status 202 (client.py line 413). -/
def winMsg (stackStr att : String) : String :=
  "\n🏆 Parabéns! Palavra Correta! 😎\nLista de Palavras Anteriores:\n" ++ stackStr ++ "\n" ++ att

/-- The feedback printed for status 203 (client.py line 420). -/
def incorrectMsg (fo : Option String) (att : String) : String :=
  "\nPalavra Incorreta!\n" ++ optDisplay fo ++ "\n" ++ att

/-- The message printed for status 206 (client.py line 438). -/
def continuedMsg (player_name : Option String) : String :=
  "Jogo Continuado com Sucesso, Boa Sorte na Próxima Rodada " ++ optDisplay player_name ++ "!"

/-- The generic invalid-command message of status 499 (client.py line 472),
with its color escapes. -/
def invalidCmdMsg : String := "\x1b[91m Comando inválido\x1b[0m"

/-- Embeds `Client.__handle_successful_cases` (client.py lines 391-438).
Each `case` of the Python `match` is one branch; stack pushes and clears,
prints, the reveal animation and the score table become events.  A raising
sub-expression aborts the branch with the mutations already performed. -/
def handleSuccessfulCases (st : ClientState) (response_status : Int) (extra : ExtraInfo) :
    StepOut :=
  if response_status = 200 then
    { state := st, events := [Event.printed "Jogo Iniciado com Sucesso"], outcome := Outcome.normal }
  else if response_status = 201 then
    { state := st, events := [Event.printed "Jogo Finalizado com Sucesso"], outcome := Outcome.normal }
  else if response_status = 202 then
    match returnAttempts extra.remaining_attempts st.words_stack.length with
    | Except.error e => { state := st, events := [], outcome := Outcome.pyError e }
    | Except.ok att =>
      let msg := winMsg (stackRender st.words_stack) att
      match renderScoreTable extra.rounds_scores with
      | Except.error e =>
        { state := st, events := [Event.printed msg], outcome := Outcome.pyError e }
      | Except.ok _ =>
        { state := { st with words_stack := [] },
          events := [Event.printed msg, Event.scoreTable, Event.cleared],
          outcome := Outcome.normal }
  else if response_status = 203 then
    let st1 := { st with words_stack := extra.format_output :: st.words_stack }
    match returnAttempts extra.remaining_attempts st1.words_stack.length with
    | Except.error e =>
      { state := st1, events := [Event.pushed extra.format_output], outcome := Outcome.pyError e }
    | Except.ok att =>
      let evs := [Event.pushed extra.format_output,
                  Event.printed (incorrectMsg extra.format_output att)]
      if extra.remaining_attempts = some 0 then
        let st2 := { st1 with words_stack := [] }
        match extra.secret_word with
        | none =>
          { state := st2, events := evs ++ [Event.cleared], outcome := Outcome.pyError "TypeError" }
        | some sw =>
          match renderScoreTable extra.rounds_scores with
          | Except.error e =>
            { state := st2, events := evs ++ [Event.cleared, Event.reveal sw],
              outcome := Outcome.pyError e }
          | Except.ok _ =>
            { state := st2,
              events := evs ++ [Event.cleared, Event.reveal sw, Event.scoreTable],
              outcome := Outcome.normal }
      else { state := st1, events := evs, outcome := Outcome.normal }
  else if response_status = 204 then
    if st.words_stack ≠ [] then
      { state := st,
        events := [Event.printed ("Lista de Palavras:\n" ++ stackRender st.words_stack)],
        outcome := Outcome.normal }
    else
      { state := st, events := [Event.printed "Não há palavras inseridas nesta rodada!"],
        outcome := Outcome.normal }
  else if response_status = 205 then
    { state := { st with words_stack := [] },
      events := [Event.printed "Jogo reiniciado com sucesso", Event.cleared],
      outcome := Outcome.normal }
  else if response_status = 206 then
    { state := st, events := [Event.printed (continuedMsg extra.player_name)],
      outcome := Outcome.normal }
  else
    { state := st, events := [], outcome := Outcome.normal }

/-- Embeds `Client.__handle_error_cases` (client.py lines 441-475).  The
attempts line of 402-405 raises `TypeError` when `remaining_attempts` is
absent; the 499 branch guards the attempts line with Python truthiness
(`if remaining_attempts:`), which is false for both `None` and `0`. -/
def handleErrorCases (st : ClientState) (response_status : Int)
    (remaining_attempts : Option Int) : StepOut :=
  if response_status = 400 then
    { state := st, events := [Event.printed "Jogo já iniciado"], outcome := Outcome.normal }
  else if response_status = 401 then
    { state := st, events := [Event.printed "Jogo não iniciado"], outcome := Outcome.normal }
  else if response_status = 402 then
    errWithAttempts st "É necessário digitar uma palavra" remaining_attempts
  else if response_status = 403 then
    errWithAttempts st "A palavra deve ter 5 letras" remaining_attempts
  else if response_status = 404 then
    errWithAttempts st "A palavra não existe no dicionário" remaining_attempts
  else if response_status = 405 then
    errWithAttempts st "Palavra já utilizada" remaining_attempts
  else if response_status = 499 then
    match remaining_attempts with
    | none => { state := st, events := [Event.printed invalidCmdMsg], outcome := Outcome.normal }
    | some n =>
      if n ≠ 0 then
        match returnAttempts (some n) st.words_stack.length with
        | Except.error e =>
          { state := st, events := [Event.printed invalidCmdMsg], outcome := Outcome.pyError e }
        | Except.ok att =>
          { state := st, events := [Event.printed invalidCmdMsg, Event.printed att],
            outcome := Outcome.normal }
      else
        { state := st, events := [Event.printed invalidCmdMsg], outcome := Outcome.normal }
  else
    { state := st, events := [], outcome := Outcome.normal }
where
  /-- The shared shape of the 402-405 branches: message plus attempts line. -/
  errWithAttempts (st : ClientState) (msg : String) (remaining : Option Int) : StepOut :=
    match returnAttempts remaining st.words_stack.length with
    | Except.error e => { state := st, events := [], outcome := Outcome.pyError e }
    | Except.ok att =>
      { state := st, events := [Event.printed (msg ++ "\n" ++ att)], outcome := Outcome.normal }

/-- Embeds `Client.__render_response` (client.py lines 374-389): dispatch by
status-code band; outside both bands nothing happens. -/
def renderResponse (st : ClientState) (response_status : Int) (extra : ExtraInfo) : StepOut :=
  if 200 ≤ response_status ∧ response_status < 400 then
    handleSuccessfulCases st response_status extra
  else if 400 ≤ response_status ∧ response_status < 500 then
    handleErrorCases st response_status extra.remaining_attempts
  else
    { state := st, events := [], outcome := Outcome.normal }

/-- Outcome of one iteration of the retry loop in
`Client.__game_continued_action`: the `__send_requisition` call raises
`OSError`, raises `json.JSONDecodeError`, or returns a response whose
`status_code` is the given integer. -/
inductive ContinueAttempt
  | oserror
  | jsonError
  | response (status : Int)
deriving DecidableEq, Repr

/-- The diagnostic printed for an `OSError` (client.py line 323). -/
def oserrorDiag : String := "Ocorreu um erro ao enviar ou receber dados pelo socket."

/-- The diagnostic printed for a `JSONDecodeError` (client.py line 326). -/
def jsonDiag : String := "Ocorreu um erro ao decodificar a resposta do servidor."

/-- The give-up message after three failures (client.py line 328). -/
def continueFailMsg : String :=
  "Ocorreu um erro ao continuar o jogo. Por favor, considere reiniciar"

/-- One iteration of the `__game_continued_action` loop: on a response the
client renders it (passing only `player_name`) and returns; on a failure
the diagnostic to print is handed back. -/
def continueTry (st : ClientState) (a : ContinueAttempt) : StepOut ⊕ String :=
  match a with
  | ContinueAttempt.response s =>
    let r := renderResponse st s { player_name := st.user_name }
    Sum.inl { r with events := Event.sentContinue :: r.events }
  | ContinueAttempt.oserror => Sum.inr oserrorDiag
  | ContinueAttempt.jsonError => Sum.inr jsonDiag

/-- Embeds `Client.__game_continued_action` (client.py lines 297-328): up
to three attempts, a diagnostic after each failure, the give-up message
after the third, never touching `__game_status`. -/
def gameContinuedAction (st : ClientState) (a1 a2 a3 : ContinueAttempt) : StepOut :=
  match continueTry st a1 with
  | Sum.inl out => out
  | Sum.inr d1 =>
    match continueTry st a2 with
    | Sum.inl out =>
      { out with events := Event.sentContinue :: Event.printed d1 :: out.events }
    | Sum.inr d2 =>
      match continueTry st a3 with
      | Sum.inl out =>
        { out with events :=
            Event.sentContinue :: Event.printed d1 ::
            Event.sentContinue :: Event.printed d2 :: out.events }
      | Sum.inr d3 =>
        { state := st,
          events := [Event.sentContinue, Event.printed d1,
                     Event.sentContinue, Event.printed d2,
                     Event.sentContinue, Event.printed d3,
                     Event.printed continueFailMsg],
          outcome := Outcome.normal }

/-- The eventual valid answer collected by
`Client.__get_user_end_game_option` (it re-prompts until it gets 1 or 2). -/
inductive EndOption
  | continueGame
  | quitGame
deriving DecidableEq, Repr

/-- The goodbye printed on the explicit quit path (client.py line 215). -/
def goodbyeMsg (user_name : Option String) : String :=
  "\nAté a próxima, " ++ optDisplay user_name ++ "! Obrigado por jogar o Termo!"

/-- The end-of-round choice of `__handle_response_status` (client.py lines
501-509 and 519-527): prompt, read the option, `__check_exit_game`, and
either the goodbye plus `sys.exit(0)` or `__game_continued_action`. -/
def endRoundSeq (st : ClientState) (o : EndOption) (a1 a2 a3 : ContinueAttempt) : StepOut :=
  match o with
  | EndOption.quitGame =>
    { state := { st with game_status := GameStatus.GAME_FINISHED },
      events := [Event.endRoundPrompt, Event.printed (goodbyeMsg st.user_name)],
      outcome := Outcome.exited }
  | EndOption.continueGame =>
    let st1 := { st with game_status := GameStatus.GAME_IN_PROGRESS }
    let res := gameContinuedAction st1 a1 a2 a3
    { res with events := Event.endRoundPrompt :: res.events }

/-- Sequencing of two step fragments: the second runs only when the first
ended normally (a raised exception or `sys.exit` skips it). -/
def andThen (x : StepOut) (f : ClientState → StepOut) : StepOut :=
  match x.outcome with
  | Outcome.normal =>
    let y := f x.state
    { y with events := x.events ++ y.events }
  | _ => x

/-- The status assignment after the 200/201 renders (client.py lines
492 and 496). -/
def withStatusSet (x : StepOut) (g : GameStatus) : StepOut :=
  match x.outcome with
  | Outcome.normal => { x with state := { x.state with game_status := g } }
  | _ => x

/-- Embeds `Client.__handle_response_status` (client.py lines 479-533).
`parameter` is the request parameter forwarded by the run loop; `o` and
`a1 a2 a3` are the user inputs and server outcomes consumed if the
end-of-round choice and the continue exchange are reached.  Direct dict
indexing on a missing key raises `KeyError`. -/
def handleResponseStatus (st : ClientState) (r : ResponseData) (parameter : Option String)
    (o : EndOption) (a1 a2 a3 : ContinueAttempt) : StepOut :=
  let remaining := r.remaining_attempts
  if r.status_code = 200 then
    withStatusSet (renderResponse st 200 {}) GameStatus.GAME_IN_PROGRESS
  else if r.status_code = 201 then
    withStatusSet (renderResponse st 201 {}) GameStatus.NO_GAME
  else if r.status_code = 202 then
    match r.rounds_scores, r.total_score with
    | some rs, some ts =>
      andThen (renderResponse st 202
          { remaining_attempts := remaining, rounds_scores := some rs, total_score := some ts })
        (fun s => endRoundSeq s o a1 a2 a3)
    | _, _ => { state := st, events := [], outcome := Outcome.pyError "KeyError" }
  else if r.status_code = 203 then
    match r.word_encoded with
    | none => { state := st, events := [], outcome := Outcome.pyError "KeyError" }
    | some enc =>
      match formatOutput parameter (some enc) with
      | Except.error e => { state := st, events := [], outcome := Outcome.pyError e }
      | Except.ok color_str =>
        if remaining ≠ some 0 then
          renderResponse st 203 { format_output := color_str, remaining_attempts := remaining }
        else
          match r.secret_word, r.rounds_scores, r.total_score with
          | some sw, some rs, some ts =>
            andThen (renderResponse st 203
                { format_output := color_str, secret_word := some sw,
                  rounds_scores := some rs, total_score := some ts,
                  remaining_attempts := remaining })
              (fun s => endRoundSeq s o a1 a2 a3)
          | _, _, _ => { state := st, events := [], outcome := Outcome.pyError "KeyError" }
  else if r.status_code = 206 then
    renderResponse st 206 { player_name := st.user_name }
  else
    renderResponse st r.status_code { remaining_attempts := remaining }

/-- Number of `continue_game` sends recorded in an event trace. -/
def sendCount : List Event → Nat
  | [] => 0
  | Event.sentContinue :: rest => sendCount rest + 1
  | _ :: rest => sendCount rest

/-- The diagnostic `__game_continued_action` prints for a failing attempt
(`none` for an attempt that got a response). -/
def failDiag : ContinueAttempt → Option String
  | ContinueAttempt.oserror => some oserrorDiag
  | ContinueAttempt.jsonError => some jsonDiag
  | ContinueAttempt.response _ => none

/-- The client states reachable by the run loop of `Client.run`: the initial
state (fresh `Client` after the nickname is read) followed by any number of
response-handling steps that did not end the process.  A step that raised a
Python exception still counts: the run loop catches it, prints it, and
continues with the mutated state. -/
inductive Reachable : ClientState → Prop
  | init (u : Option String) :
      Reachable { game_status := GameStatus.NO_GAME, words_stack := [], user_name := u }
  | step (st : ClientState) (r : ResponseData) (p : Option String) (o : EndOption)
      (a1 a2 a3 : ContinueAttempt) :
      Reachable st →
      (handleResponseStatus st r p o a1 a2 a3).outcome ≠ Outcome.exited →
      Reachable (handleResponseStatus st r p o a1 a2 a3).state

/-- A status-203 (incorrect guess) response with the given optional fields;
used to state properties of `__handle_response_status` for that status. -/
def resp203 (ra : Option Int) (enc : List Int) (osw : Option String)
    (ors : Option (List (String × Int))) (ots : Option Int) : ResponseData :=
  { status_code := 203, remaining_attempts := ra, word_encoded := some enc,
    secret_word := osw, rounds_scores := ors, total_score := ots }

/-! ## Claim C1 — `__return_attempts` -/

/-- C1 counterexample: with the remaining-attempts value absent (`None`),
`__return_attempts` does not return the attempts-so-far string for a
two-entry stack; it raises `TypeError` (from `None >= 0`), so the helper is
not total and the absent case never reaches the count message. -/
theorem c1_counterexample :
    returnAttempts none 2 ≠ Except.ok ("Número de tentativas até agora: " ++ toString (2 : Nat)) ∧
    returnAttempts none 2 = Except.error "TypeError" :=
  ⟨fun h => Except.noConfusion h, rfl⟩

/-- C1 (amended): a supplied non-negative integer yields the
remaining-attempts string and a supplied negative integer yields the
attempts-so-far string built from the stack size, but an absent value makes
`__return_attempts` raise `TypeError` instead of returning the count
message. -/
theorem c1_return_attempts (n : Int) (L : Nat) :
    (0 ≤ n → returnAttempts (some n) L = Except.ok ("Tentativas Restantes: " ++ toString n)) ∧
    (n < 0 → returnAttempts (some n) L =
      Except.ok ("Número de tentativas até agora: " ++ toString L)) ∧
    returnAttempts none L = Except.error "TypeError" := by
  refine ⟨fun h => ?_, fun h => ?_, rfl⟩
  · simp only [returnAttempts]
    rw [if_pos (by omega)]
  · simp only [returnAttempts]
    rw [if_neg (by omega)]

/-- C1 witness: the amended statement at `n = 3`, stack size 2. -/
theorem c1_witness :
    0 ≤ (3 : Int) ∧
    returnAttempts (some 3) 2 = Except.ok ("Tentativas Restantes: " ++ toString (3 : Int)) :=
  ⟨by decide, (c1_return_attempts 3 2).1 (by decide)⟩

/-! ## Claim C4 — `__render_response` dispatch -/

/-- C4: `__render_response` sends every status in [200, 400) to the success
handler, every status in [400, 500) to the error handler (forwarding the
`remaining_attempts` extra), and for any status outside [200, 500) emits no
event, changes no state and ends normally. -/
theorem c4_render_dispatch (st : ClientState) (s : Int) (e : ExtraInfo) :
    (200 ≤ s → s < 400 → renderResponse st s e = handleSuccessfulCases st s e) ∧
    (400 ≤ s → s < 500 → renderResponse st s e = handleErrorCases st s e.remaining_attempts) ∧
    (s < 200 ∨ 500 ≤ s →
      renderResponse st s e = { state := st, events := [], outcome := Outcome.normal }) := by
  unfold renderResponse
  refine ⟨fun h1 h2 => ?_, fun h1 h2 => ?_, fun h => ?_⟩
  · rw [if_pos ⟨h1, h2⟩]
  · rw [if_neg (by omega), if_pos ⟨h1, h2⟩]
  · rcases h with h | h
    · rw [if_neg (by omega), if_neg (by omega)]
    · rw [if_neg (by omega), if_neg (by omega)]

/-- C4 witness: status 600 is silently ignored. -/
theorem c4_witness :
    ((600 : Int) < 200 ∨ 500 ≤ (600 : Int)) ∧
    renderResponse
        { game_status := GameStatus.GAME_IN_PROGRESS, words_stack := [some "w"],
          user_name := some "alice" } 600 {} =
      { state := { game_status := GameStatus.GAME_IN_PROGRESS, words_stack := [some "w"],
                   user_name := some "alice" },
        events := [], outcome := Outcome.normal } :=
  ⟨Or.inr (by decide),
   (c4_render_dispatch _ 600 {}).2.2 (Or.inr (by decide))⟩

/-! ## Claim C6 — `__connect_to_server` -/

/-- C6: if every attempt fails, `__connect_to_server` makes exactly 5
attempts (never a 6th), sleeps 5 seconds after each of the 5 failures, and
fails with the restart-the-client connection error; if attempt `k < 5` is
the first to succeed, its socket is returned after `k + 1` attempts and `k`
sleeps. -/
theorem c6_connect (outcomes : Nat → ConnectAttempt) :
    ((∀ i, i < 5 → outcomes i = ConnectAttempt.failure) →
      connectToServer outcomes = (Except.error connFailMsg, 5, 5)) ∧
    (∀ k sock, k < 5 → outcomes k = ConnectAttempt.success sock →
      (∀ j, j < k → outcomes j = ConnectAttempt.failure) →
      connectToServer outcomes = (Except.ok sock, k + 1, k)) := by
  constructor
  · intro h
    have h0 := h 0 (by omega)
    have h1 := h 1 (by omega)
    have h2 := h 2 (by omega)
    have h3 := h 3 (by omega)
    have h4 := h 4 (by omega)
    simp [connectToServer, connectGo, h0, h1, h2, h3, h4]
  · intro k sock hk hs hprev
    interval_cases k
    · simp [connectToServer, connectGo, hs]
    · have p0 := hprev 0 (by omega)
      simp [connectToServer, connectGo, p0, hs]
    · have p0 := hprev 0 (by omega)
      have p1 := hprev 1 (by omega)
      simp [connectToServer, connectGo, p0, p1, hs]
    · have p0 := hprev 0 (by omega)
      have p1 := hprev 1 (by omega)
      have p2 := hprev 2 (by omega)
      simp [connectToServer, connectGo, p0, p1, p2, hs]
    · have p0 := hprev 0 (by omega)
      have p1 := hprev 1 (by omega)
      have p2 := hprev 2 (by omega)
      have p3 := hprev 3 (by omega)
      simp [connectToServer, connectGo, p0, p1, p2, p3, hs]

/-- C6 witness: the always-failing connection. -/
theorem c6_witness :
    (∀ i, i < 5 → (fun _ => ConnectAttempt.failure) i = ConnectAttempt.failure) ∧
    connectToServer (fun _ => ConnectAttempt.failure) = (Except.error connFailMsg, 5, 5) :=
  ⟨fun _ _ => rfl, (c6_connect (fun _ => ConnectAttempt.failure)).1 (fun _ _ => rfl)⟩

/-! ## Claim C7 — `__process_user_command` -/

/-- C7: the interpreter maps "1" and "2" unconditionally, maps "3"/"4"/"5"
exactly when the game is in progress (lower-casing the prompted guess for
"3"), and fails for every other input, or for "3"/"4"/"5" out of a game,
with an invalid-command error whose message ends in the offending input. -/
theorem c7_process_user_command (c : String) (gs : GameStatus) (u : Option String) (g : String) :
    processUserCommand "1" gs u g = Except.ok ("start_game", u) ∧
    processUserCommand "2" gs u g = Except.ok ("exit_game", none) ∧
    processUserCommand "3" GameStatus.GAME_IN_PROGRESS u g =
      Except.ok ("check_word", some g.toLower) ∧
    processUserCommand "4" GameStatus.GAME_IN_PROGRESS u g = Except.ok ("list_words", none) ∧
    processUserCommand "5" GameStatus.GAME_IN_PROGRESS u g = Except.ok ("restart_game", u) ∧
    (gs ≠ GameStatus.GAME_IN_PROGRESS →
      processUserCommand "3" gs u g = Except.error ("Comando inválido:" ++ " " ++ "3") ∧
      processUserCommand "4" gs u g = Except.error ("Comando inválido:" ++ " " ++ "4") ∧
      processUserCommand "5" gs u g = Except.error ("Comando inválido:" ++ " " ++ "5")) ∧
    (c ∉ (["1", "2", "3", "4", "5"] : List String) →
      processUserCommand c gs u g = Except.error ("Comando inválido:" ++ " " ++ c)) := by
  refine ⟨?_, ?_, ?_, ?_, ?_, ?_, ?_⟩
  · cases gs <;> rfl
  · cases gs <;> rfl
  · rfl
  · rfl
  · rfl
  · intro h
    cases gs with
    | NO_GAME => exact ⟨rfl, rfl, rfl⟩
    | GAME_IN_PROGRESS => exact absurd rfl h
    | GAME_FINISHED => exact ⟨rfl, rfl, rfl⟩
  · intro h
    simp only [List.mem_cons, not_or] at h
    obtain ⟨h1, h2, h3, h4, h5, -⟩ := h
    have m3 : ¬(c = "3" ∧ gs = GameStatus.GAME_IN_PROGRESS) := fun hh => h3 hh.1
    have m4 : ¬(c = "4" ∧ gs = GameStatus.GAME_IN_PROGRESS) := fun hh => h4 hh.1
    have m5 : ¬(c = "5" ∧ gs = GameStatus.GAME_IN_PROGRESS) := fun hh => h5 hh.1
    simp only [processUserCommand, if_neg h1, if_neg h2, if_neg m3, if_neg m4, if_neg m5]

/-- C7 witness: input "9" in `NO_GAME` is rejected with a message carrying
the input. -/
theorem c7_witness :
    ("9" : String) ∉ (["1", "2", "3", "4", "5"] : List String) ∧
    processUserCommand "9" GameStatus.NO_GAME (some "alice") "HELLO" =
      Except.error ("Comando inválido:" ++ " " ++ "9") :=
  ⟨by decide,
   (c7_process_user_command "9" GameStatus.NO_GAME (some "alice") "HELLO").2.2.2.2.2.2
     (by decide)⟩

/-! ## Shared lemmas about `__format_output` and `__return_attempts` -/

/-- A supplied (integer) remaining-attempts value never makes
`__return_attempts` raise. -/
theorem returnAttempts_some_isOk (n : Int) (L : Nat) :
    ∃ att, returnAttempts (some n) L = Except.ok att := by
  rcases le_or_lt 0 n with h | h
  · refine ⟨"Tentativas Restantes: " ++ toString n, ?_⟩
    show (if n ≥ 0 then Except.ok ("Tentativas Restantes: " ++ toString n)
      else Except.ok ("Número de tentativas até agora: " ++ toString L)) = _
    rw [if_pos h]
  · refine ⟨"Número de tentativas até agora: " ++ toString L, ?_⟩
    show (if n ≥ 0 then Except.ok ("Tentativas Restantes: " ++ toString n)
      else Except.ok ("Número de tentativas até agora: " ++ toString L)) = _
    rw [if_neg (by omega)]

/-- On an in-range encoding suffix, the formatting loop of
`__format_output` returns the concatenation of one wrapped letter per
encoding entry, pairing entry `i` with the letter at position
`index + i`. -/
theorem formatOutputAux_ok (w : List Char) :
    ∀ (l : List Int) (index : Nat), index + l.length ≤ w.length →
    formatOutputAux w l index =
      Except.ok (concatAll (((w.drop index).zip l).map (fun p => wrapLetter p.1 p.2))) := by
  intro l
  induction l with
  | nil =>
    intro index h
    show Except.ok "" = _
    rw [List.zip_nil_right]
    rfl
  | cons code rest ih =>
    intro index h
    have hidx : index < w.length := by simp only [List.length_cons] at h; omega
    have hget : w.get? index = some (w.get ⟨index, hidx⟩) := List.get?_eq_get hidx
    have hdrop : w.drop index = w.get ⟨index, hidx⟩ :: w.drop (index + 1) :=
      List.drop_eq_get_cons hidx
    have hih := ih (index + 1) (by simp only [List.length_cons] at h; omega)
    show (match w.get? index with
          | none => Except.error "IndexError"
          | some c =>
            match formatOutputAux w rest (index + 1) with
            | Except.error e => Except.error e
            | Except.ok tail => Except.ok (wrapLetter c code ++ tail)) = _
    rw [hget, hih, hdrop]
    rfl

/-- With a non-empty encoding that overruns the word, the formatting loop
of `__format_output` hits an out-of-range word index and raises
`IndexError`. -/
theorem formatOutputAux_err (w : List Char) :
    ∀ (l : List Int) (index : Nat), l ≠ [] → w.length < index + l.length →
    formatOutputAux w l index = Except.error "IndexError" := by
  intro l
  induction l with
  | nil => intro index h _; exact absurd rfl h
  | cons code rest ih =>
    intro index _ h
    show (match w.get? index with
          | none => Except.error "IndexError"
          | some c =>
            match formatOutputAux w rest (index + 1) with
            | Except.error e => Except.error e
            | Except.ok tail => Except.ok (wrapLetter c code ++ tail)) = _
    by_cases hidx : index < w.length
    · have hget : w.get? index = some (w.get ⟨index, hidx⟩) := List.get?_eq_get hidx
      have hrest : rest ≠ [] := by
        rintro rfl
        simp only [List.length_cons, List.length_nil] at h
        omega
      have hih := ih (index + 1) hrest
        (by simp only [List.length_cons] at h ⊢; omega)
      rw [hget, hih]
    · have hget : w.get? index = none := List.get?_len_le (by omega)
      rw [hget]

/-- With a truthy word and truthy encoding, `__format_output` runs its
formatting loop and wraps a non-erroring result in `some`. -/
theorem formatOutput_some_eq (s : String) (l : List Int) (hs : s ≠ "") (hl : l ≠ []) :
    formatOutput (some s) (some l) =
      match formatOutputAux s.toList l 0 with
      | Except.error e => Except.error e
      | Except.ok out => Except.ok (some out) := by
  show (if s ≠ "" ∧ l ≠ [] then
      match formatOutputAux s.toList l 0 with
      | Except.error e => Except.error e
      | Except.ok out => Except.ok (some out)
    else Except.ok none) = _
  rw [if_pos ⟨hs, hl⟩]

/-! ## Claim C8 — `__format_output`, per-letter rendering -/

/-- C8: `__format_output` produces no string when the word or the encoding
is absent or empty; otherwise (here with a per-letter encoding, one entry
per word letter) it returns the concatenation, in index order, of one
wrapped letter per encoding entry — value 2 wrapped in the bright-green
escape, 1 in bright yellow, anything else in dim gray, each letter
individually reset. -/
theorem c8_format_output (w : Option String) (fi : Option (List Int)) :
    ((w = none ∨ w = some "" ∨ fi = none ∨ fi = some []) → formatOutput w fi = Except.ok none) ∧
    (∀ s l, w = some s → fi = some l → s ≠ "" → l ≠ [] → l.length = s.toList.length →
      formatOutput w fi =
        Except.ok (some (concatAll ((s.toList.zip l).map (fun p => wrapLetter p.1 p.2))))) := by
  constructor
  · rintro (rfl | rfl | rfl | rfl)
    · cases fi <;> rfl
    · cases fi with
      | none => rfl
      | some l => simp [formatOutput]
    · cases w <;> rfl
    · cases w with
      | none => rfl
      | some s => simp [formatOutput]
  · rintro s l rfl rfl hs hl hlen
    have hall := formatOutputAux_ok s.toList l 0 (by omega)
    rw [List.drop_zero] at hall
    rw [formatOutput_some_eq s l hs hl, hall]

/-- C8 witness: the word "ab" with per-letter encoding `[2, 0]`. -/
theorem c8_witness :
    ([2, 0] : List Int).length = ("ab" : String).toList.length ∧
    formatOutput (some "ab") (some [2, 0]) =
      Except.ok (some (concatAll ((("ab" : String).toList.zip ([2, 0] : List Int)).map
        (fun p => wrapLetter p.1 p.2)))) :=
  ⟨by decide,
   (c8_format_output (some "ab") (some [2, 0])).2 "ab" [2, 0] rfl rfl
     (by decide) (by decide) (by decide)⟩

/-! ## Claim C10 — `__format_output` totality bound -/

/-- C10: for a non-empty word and non-empty encoding, `__format_output`
returns without error exactly when the encoding is no longer than the word;
under that precondition the output is one wrapped letter per encoding entry
(the zip has exactly the encoding's length), and a strictly longer encoding
makes the word lookup go out of bounds (`IndexError`). -/
theorem c10_format_output_total (s : String) (l : List Int) (hs : s ≠ "") (hl : l ≠ []) :
    ((∃ v, formatOutput (some s) (some l) = Except.ok v) ↔ l.length ≤ s.toList.length) ∧
    (l.length ≤ s.toList.length →
      formatOutput (some s) (some l) =
        Except.ok (some (concatAll ((s.toList.zip l).map (fun p => wrapLetter p.1 p.2)))) ∧
      (s.toList.zip l).length = l.length) ∧
    (s.toList.length < l.length → formatOutput (some s) (some l) = Except.error "IndexError") := by
  have hok : l.length ≤ s.toList.length →
      formatOutput (some s) (some l) =
        Except.ok (some (concatAll ((s.toList.zip l).map (fun p => wrapLetter p.1 p.2)))) := by
    intro h
    have hall := formatOutputAux_ok s.toList l 0 (by omega)
    rw [List.drop_zero] at hall
    rw [formatOutput_some_eq s l hs hl, hall]
  have herr : s.toList.length < l.length →
      formatOutput (some s) (some l) = Except.error "IndexError" := by
    intro h
    have hall := formatOutputAux_err s.toList l 0 hl (by omega)
    rw [formatOutput_some_eq s l hs hl, hall]
  refine ⟨⟨?_, fun h => ⟨_, hok h⟩⟩, fun h => ⟨hok h, ?_⟩, herr⟩
  · rintro ⟨v, hv⟩
    by_contra hlt
    push_neg at hlt
    rw [herr hlt] at hv
    exact Except.noConfusion hv
  · rw [List.length_zip]
    omega

/-- C10 witness: "ab" with the strictly longer encoding `[2, 0, 1]` is out
of bounds. -/
theorem c10_witness :
    ("ab" : String) ≠ "" ∧ ([2, 0, 1] : List Int) ≠ [] ∧
    ("ab" : String).toList.length < ([2, 0, 1] : List Int).length ∧
    formatOutput (some "ab") (some [2, 0, 1]) = Except.error "IndexError" :=
  ⟨by decide, by decide, by decide,
   (c10_format_output_total "ab" [2, 0, 1] (by decide) (by decide)).2.2 (by decide)⟩

/-! ## Claim C3 — error handler for status 499 -/

/-- C3 counterexample: a 499 response that does supply
`remaining_attempts = 0` renders only the generic invalid-command message —
Python truthiness (`if remaining_attempts:`) drops the attempts line for the
supplied value 0, contradicting the claim's "including when the supplied
value is 0". -/
theorem c3_counterexample :
    handleErrorCases
        { game_status := GameStatus.GAME_IN_PROGRESS, words_stack := [some "w"],
          user_name := some "u" } 499 (some 0) =
      { state := { game_status := GameStatus.GAME_IN_PROGRESS, words_stack := [some "w"],
                   user_name := some "u" },
        events := [Event.printed invalidCmdMsg], outcome := Outcome.normal } := rfl

/-- C3 (amended): for status 499 the error handler always renders the
generic invalid-command message, never changes state, and renders the
attempts-info line iff `remaining_attempts` was supplied *and is non-zero*
(Python truthiness): an absent value and a supplied 0 both omit it. -/
theorem c3_error_499 (st : ClientState) (ra : Option Int) :
    (handleErrorCases st 499 ra).state = st ∧
    (handleErrorCases st 499 ra).outcome = Outcome.normal ∧
    Event.printed invalidCmdMsg ∈ (handleErrorCases st 499 ra).events ∧
    ((ra = none ∨ ra = some 0) →
      (handleErrorCases st 499 ra).events = [Event.printed invalidCmdMsg]) ∧
    (∀ n, ra = some n → n ≠ 0 →
      ∃ att, returnAttempts (some n) st.words_stack.length = Except.ok att ∧
        (handleErrorCases st 499 ra).events =
          [Event.printed invalidCmdMsg, Event.printed att]) := by
  cases ra with
  | none =>
    refine ⟨rfl, rfl, ?_, fun _ => rfl, ?_⟩
    · exact List.mem_singleton.mpr rfl
    · intro n h
      exact absurd h (by simp)
  | some n =>
    by_cases hn : n = 0
    · subst hn
      refine ⟨rfl, rfl, List.mem_singleton.mpr rfl, fun _ => rfl, ?_⟩
      intro m hm h0
      injection hm with hv
      exact absurd hv.symm h0
    · obtain ⟨att, hatt⟩ := returnAttempts_some_isOk n st.words_stack.length
      have hred : handleErrorCases st 499 (some n) =
          { state := st, events := [Event.printed invalidCmdMsg, Event.printed att],
            outcome := Outcome.normal } := by
        have hstep : handleErrorCases st 499 (some n) =
            (if n ≠ 0 then
              match returnAttempts (some n) st.words_stack.length with
              | Except.error e =>
                ({ state := st, events := [Event.printed invalidCmdMsg],
                   outcome := Outcome.pyError e } : StepOut)
              | Except.ok att =>
                { state := st, events := [Event.printed invalidCmdMsg, Event.printed att],
                  outcome := Outcome.normal }
            else
              { state := st, events := [Event.printed invalidCmdMsg],
                outcome := Outcome.normal }) := rfl
        rw [hstep, if_pos hn, hatt]
      rw [hred]
      refine ⟨rfl, rfl, List.mem_cons_self _ _, ?_, ?_⟩
      · rintro (h | h) <;> simp at h
        exact absurd h hn
      · intro m hm h0
        injection hm with hv
        subst hv
        exact ⟨att, hatt, rfl⟩

/-- C3 witness: a supplied non-zero remaining-attempts value does render
the attempts line. -/
theorem c3_witness :
    (3 : Int) ≠ 0 ∧
    ∃ att, returnAttempts (some 3) 1 = Except.ok att ∧
      (handleErrorCases
          { game_status := GameStatus.GAME_IN_PROGRESS, words_stack := [some "w"],
            user_name := some "u" } 499 (some 3)).events =
        [Event.printed invalidCmdMsg, Event.printed att] :=
  ⟨by decide,
   (c3_error_499 { game_status := GameStatus.GAME_IN_PROGRESS, words_stack := [some "w"],
                   user_name := some "u" } (some 3)).2.2.2.2 3 rfl (by decide)⟩

/-! ## Shared lemmas about the response handlers -/

/-- `__handle_successful_cases` never touches `__game_status`. -/
theorem hsc_game_status (st : ClientState) (s : Int) (e : ExtraInfo) :
    (handleSuccessfulCases st s e).state.game_status = st.game_status := by
  unfold handleSuccessfulCases
  repeat' split
  all_goals solve
    | rfl
    | ((try dsimp only); repeat' split; all_goals rfl)

/-- `__handle_error_cases` never touches `__game_status`. -/
theorem hec_game_status (st : ClientState) (s : Int) (ra : Option Int) :
    (handleErrorCases st s ra).state.game_status = st.game_status := by
  unfold handleErrorCases handleErrorCases.errWithAttempts
  repeat' split
  all_goals solve
    | rfl
    | ((try dsimp only); repeat' split; all_goals rfl)

/-- `__render_response` never touches `__game_status`. -/
theorem renderResponse_game_status (st : ClientState) (s : Int) (e : ExtraInfo) :
    (renderResponse st s e).state.game_status = st.game_status := by
  unfold renderResponse
  split
  · exact hsc_game_status st s e
  · split
    · exact hec_game_status st s e.remaining_attempts
    · rfl

/-- The success handler sends no `continue_game` request. -/
theorem sendCount_hsc (st : ClientState) (s : Int) (e : ExtraInfo) :
    sendCount (handleSuccessfulCases st s e).events = 0 := by
  unfold handleSuccessfulCases
  repeat' split
  all_goals solve
    | rfl
    | ((try dsimp only); repeat' split; all_goals rfl)

/-- The error handler sends no `continue_game` request. -/
theorem sendCount_hec (st : ClientState) (s : Int) (ra : Option Int) :
    sendCount (handleErrorCases st s ra).events = 0 := by
  unfold handleErrorCases handleErrorCases.errWithAttempts
  repeat' split
  all_goals solve
    | rfl
    | ((try dsimp only); repeat' split; all_goals rfl)

/-- `__render_response` sends no `continue_game` request. -/
theorem sendCount_render (st : ClientState) (s : Int) (e : ExtraInfo) :
    sendCount (renderResponse st s e).events = 0 := by
  unfold renderResponse
  split
  · exact sendCount_hsc st s e
  · split
    · exact sendCount_hec st s e.remaining_attempts
    · rfl

/-- The success handler never shows the end-of-round prompt (only
`__handle_response_status` does, after it returns). -/
theorem prompt_not_in_hsc (st : ClientState) (s : Int) (e : ExtraInfo) :
    Event.endRoundPrompt ∉ (handleSuccessfulCases st s e).events := by
  unfold handleSuccessfulCases
  repeat' split
  all_goals solve
    | simp
    | ((try dsimp only); repeat' split; all_goals simp)

/-- The error handler never shows the end-of-round prompt. -/
theorem prompt_not_in_hec (st : ClientState) (s : Int) (ra : Option Int) :
    Event.endRoundPrompt ∉ (handleErrorCases st s ra).events := by
  unfold handleErrorCases handleErrorCases.errWithAttempts
  repeat' split
  all_goals solve
    | simp
    | ((try dsimp only); repeat' split; all_goals simp)

/-- `__render_response` never shows the end-of-round prompt. -/
theorem prompt_not_in_render (st : ClientState) (s : Int) (e : ExtraInfo) :
    Event.endRoundPrompt ∉ (renderResponse st s e).events := by
  unfold renderResponse
  split
  · exact prompt_not_in_hsc st s e
  · split
    · exact prompt_not_in_hec st s e.remaining_attempts
    · simp

/-- The continue-round exchange never touches `__game_status`. -/
theorem gameContinuedAction_game_status (st : ClientState) (a1 a2 a3 : ContinueAttempt) :
    (gameContinuedAction st a1 a2 a3).state.game_status = st.game_status := by
  cases a1 <;> cases a2 <;> cases a3 <;>
    simp [gameContinuedAction, continueTry, renderResponse_game_status]

/-! ## Claim C5 — `__game_continued_action` retry policy -/

/-- C5: the continue-round exchange sends the `continue_game` request at
most 3 times and stops at the first attempt that yields a response — for
each possible position of that first response (1st, 2nd or 3rd attempt)
the exact number of sends is 1, 2 or 3 and every earlier failure has
printed its diagnostic; when all three attempts fail the exchange prints
the three diagnostics and the consider-restarting message and returns
normally; and in every case `__game_status` is left unchanged. -/
theorem c5_continue_retry (st : ClientState) (a1 a2 a3 : ContinueAttempt) :
    (gameContinuedAction st a1 a2 a3).state.game_status = st.game_status ∧
    sendCount (gameContinuedAction st a1 a2 a3).events ≤ 3 ∧
    (∀ s, a1 = ContinueAttempt.response s →
      sendCount (gameContinuedAction st a1 a2 a3).events = 1) ∧
    (∀ d1, failDiag a1 = some d1 →
      Event.printed d1 ∈ (gameContinuedAction st a1 a2 a3).events ∧
      2 ≤ sendCount (gameContinuedAction st a1 a2 a3).events) ∧
    (∀ s, a1 = ContinueAttempt.response s →
      gameContinuedAction st a1 a2 a3 =
        { state := (renderResponse st s { player_name := st.user_name }).state,
          events := Event.sentContinue ::
            (renderResponse st s { player_name := st.user_name }).events,
          outcome := (renderResponse st s { player_name := st.user_name }).outcome }) ∧
    (∀ d1 s, failDiag a1 = some d1 → a2 = ContinueAttempt.response s →
      sendCount (gameContinuedAction st a1 a2 a3).events = 2 ∧
      gameContinuedAction st a1 a2 a3 =
        { state := (renderResponse st s { player_name := st.user_name }).state,
          events := Event.sentContinue :: Event.printed d1 :: Event.sentContinue ::
            (renderResponse st s { player_name := st.user_name }).events,
          outcome := (renderResponse st s { player_name := st.user_name }).outcome }) ∧
    (∀ d1 d2 s, failDiag a1 = some d1 → failDiag a2 = some d2 →
      a3 = ContinueAttempt.response s →
      sendCount (gameContinuedAction st a1 a2 a3).events = 3 ∧
      gameContinuedAction st a1 a2 a3 =
        { state := (renderResponse st s { player_name := st.user_name }).state,
          events := Event.sentContinue :: Event.printed d1 ::
            Event.sentContinue :: Event.printed d2 :: Event.sentContinue ::
            (renderResponse st s { player_name := st.user_name }).events,
          outcome := (renderResponse st s { player_name := st.user_name }).outcome }) ∧
    (∀ d1 d2 d3, failDiag a1 = some d1 → failDiag a2 = some d2 → failDiag a3 = some d3 →
      gameContinuedAction st a1 a2 a3 =
        { state := st,
          events := [Event.sentContinue, Event.printed d1, Event.sentContinue, Event.printed d2,
                     Event.sentContinue, Event.printed d3, Event.printed continueFailMsg],
          outcome := Outcome.normal }) := by
  cases a1 <;> cases a2 <;> cases a3 <;>
    simp [gameContinuedAction, continueTry, failDiag, sendCount, sendCount_render,
      gameContinuedAction_game_status, renderResponse_game_status]

/-- C5 witness: three straight failures. -/
theorem c5_witness :
    failDiag ContinueAttempt.oserror = some oserrorDiag ∧
    failDiag ContinueAttempt.jsonError = some jsonDiag ∧
    gameContinuedAction
        { game_status := GameStatus.GAME_IN_PROGRESS, words_stack := [],
          user_name := some "alice" }
        ContinueAttempt.oserror ContinueAttempt.jsonError ContinueAttempt.oserror =
      { state := { game_status := GameStatus.GAME_IN_PROGRESS, words_stack := [],
                   user_name := some "alice" },
        events := [Event.sentContinue, Event.printed oserrorDiag,
                   Event.sentContinue, Event.printed jsonDiag,
                   Event.sentContinue, Event.printed oserrorDiag,
                   Event.printed continueFailMsg],
        outcome := Outcome.normal } :=
  ⟨rfl, rfl,
   (c5_continue_retry { game_status := GameStatus.GAME_IN_PROGRESS, words_stack := [],
                        user_name := some "alice" }
      ContinueAttempt.oserror ContinueAttempt.jsonError
      ContinueAttempt.oserror).2.2.2.2.2.2.2 oserrorDiag jsonDiag oserrorDiag rfl rfl rfl⟩

/-! ## Reduction lemmas for `__handle_response_status` -/

/-- Statuses in the success band reduce `__render_response` to the success
handler; stated for 203 where it is needed syntactically. -/
theorem render203_eq (st : ClientState) (e : ExtraInfo) :
    renderResponse st 203 e = handleSuccessfulCases st 203 e := rfl

/-- `__return_attempts` at a supplied 0 yields the remaining-attempts
string. -/
theorem returnAttempts_zero (L : Nat) :
    returnAttempts (some 0) L =
      Except.ok ("Tentativas Restantes: " ++ toString (0 : Int)) := rfl

/-- The success handler at 202, unfolded. -/
theorem hsc202_eq (st : ClientState) (e : ExtraInfo) :
    handleSuccessfulCases st 202 e =
      match returnAttempts e.remaining_attempts st.words_stack.length with
      | Except.error e1 =>
        ({ state := st, events := [], outcome := Outcome.pyError e1 } : StepOut)
      | Except.ok att =>
        match renderScoreTable e.rounds_scores with
        | Except.error e2 =>
          { state := st,
            events := [Event.printed (winMsg (stackRender st.words_stack) att)],
            outcome := Outcome.pyError e2 }
        | Except.ok _ =>
          { state := { st with words_stack := [] },
            events := [Event.printed (winMsg (stackRender st.words_stack) att),
                       Event.scoreTable, Event.cleared],
            outcome := Outcome.normal } := rfl

/-- The success handler at 203, unfolded. -/
theorem hsc203_eq (st : ClientState) (e : ExtraInfo) :
    handleSuccessfulCases st 203 e =
      match returnAttempts e.remaining_attempts (st.words_stack.length + 1) with
      | Except.error e1 =>
        ({ state := { st with words_stack := e.format_output :: st.words_stack },
           events := [Event.pushed e.format_output],
           outcome := Outcome.pyError e1 } : StepOut)
      | Except.ok att =>
        if e.remaining_attempts = some 0 then
          match e.secret_word with
          | none =>
            { state := { st with words_stack := [] },
              events := [Event.pushed e.format_output,
                         Event.printed (incorrectMsg e.format_output att), Event.cleared],
              outcome := Outcome.pyError "TypeError" }
          | some sw =>
            match renderScoreTable e.rounds_scores with
            | Except.error e2 =>
              { state := { st with words_stack := [] },
                events := [Event.pushed e.format_output,
                           Event.printed (incorrectMsg e.format_output att),
                           Event.cleared, Event.reveal sw],
                outcome := Outcome.pyError e2 }
            | Except.ok _ =>
              { state := { st with words_stack := [] },
                events := [Event.pushed e.format_output,
                           Event.printed (incorrectMsg e.format_output att),
                           Event.cleared, Event.reveal sw, Event.scoreTable],
                outcome := Outcome.normal }
        else
          { state := { st with words_stack := e.format_output :: st.words_stack },
            events := [Event.pushed e.format_output,
                       Event.printed (incorrectMsg e.format_output att)],
            outcome := Outcome.normal } := rfl

/-- `__handle_response_status` on a 201 response: renders the exit message
and sets `NO_GAME`, leaving the word stack untouched. -/
theorem hrs_201_eq (st : ClientState) (r : ResponseData) (p : Option String) (o : EndOption)
    (a1 a2 a3 : ContinueAttempt) (h : r.status_code = 201) :
    handleResponseStatus st r p o a1 a2 a3 =
      { state := { st with game_status := GameStatus.NO_GAME },
        events := [Event.printed "Jogo Finalizado com Sucesso"],
        outcome := Outcome.normal } := by
  unfold handleResponseStatus
  simp only [h]
  rfl

/-- `__handle_response_status` on a 202 response, unfolded to the dict
lookups and the render-then-end-of-round sequence. -/
theorem hrs_202_eq (st : ClientState) (r : ResponseData) (p : Option String) (o : EndOption)
    (a1 a2 a3 : ContinueAttempt) (h : r.status_code = 202) :
    handleResponseStatus st r p o a1 a2 a3 =
      match r.rounds_scores, r.total_score with
      | some rs, some ts =>
        andThen (renderResponse st 202
            { remaining_attempts := r.remaining_attempts, rounds_scores := some rs,
              total_score := some ts })
          (fun s => endRoundSeq s o a1 a2 a3)
      | _, _ => { state := st, events := [], outcome := Outcome.pyError "KeyError" } := by
  unfold handleResponseStatus
  simp only [h]
  rfl

/-- `__handle_response_status` on a 203 response whose `word_encoded` key
is missing: the dict lookup raises `KeyError`. -/
theorem hrs_203_noenc (st : ClientState) (r : ResponseData) (p : Option String) (o : EndOption)
    (a1 a2 a3 : ContinueAttempt) (h : r.status_code = 203) (hwe : r.word_encoded = none) :
    handleResponseStatus st r p o a1 a2 a3 =
      { state := st, events := [], outcome := Outcome.pyError "KeyError" } := by
  unfold handleResponseStatus
  simp only [h, hwe]
  rfl

/-- `__handle_response_status` on a 203 response where `__format_output`
raises: the exception propagates before any rendering. -/
theorem hrs_203_errfmt (st : ClientState) (r : ResponseData) (p : Option String) (o : EndOption)
    (a1 a2 a3 : ContinueAttempt) (h : r.status_code = 203) (enc : List Int) (e : String)
    (henc : r.word_encoded = some enc) (hfo : formatOutput p (some enc) = Except.error e) :
    handleResponseStatus st r p o a1 a2 a3 =
      { state := st, events := [], outcome := Outcome.pyError e } := by
  unfold handleResponseStatus
  simp only [h, henc, hfo]
  rfl

/-- `__handle_response_status` on a 203 response once the guess has been
colorized: the zero test on `remaining_attempts` decides between the
round-not-over render and the end-of-round sequence. -/
theorem hrs_203_ok_eq (st : ClientState) (r : ResponseData) (p : Option String) (o : EndOption)
    (a1 a2 a3 : ContinueAttempt) (h : r.status_code = 203) (enc : List Int) (cs : Option String)
    (henc : r.word_encoded = some enc) (hfo : formatOutput p (some enc) = Except.ok cs) :
    handleResponseStatus st r p o a1 a2 a3 =
      (if r.remaining_attempts ≠ some 0 then
        renderResponse st 203
          { format_output := cs, remaining_attempts := r.remaining_attempts }
      else
        match r.secret_word, r.rounds_scores, r.total_score with
        | some sw, some rs, some ts =>
          andThen (renderResponse st 203
              { format_output := cs, secret_word := some sw,
                rounds_scores := some rs, total_score := some ts,
                remaining_attempts := r.remaining_attempts })
            (fun s => endRoundSeq s o a1 a2 a3)
        | _, _, _ =>
          { state := st, events := [], outcome := Outcome.pyError "KeyError" }) := by
  unfold handleResponseStatus
  simp only [h, henc, hfo]
  rfl

/-- The 203 case with `remaining_attempts = 0` and all end-of-round fields
present: render feedback, then run the end-of-round choice. -/
theorem hrs_203_eq0 (st : ClientState) (r : ResponseData) (p : Option String) (o : EndOption)
    (a1 a2 a3 : ContinueAttempt) (h : r.status_code = 203)
    (h0 : r.remaining_attempts = some 0)
    (enc : List Int) (cs : Option String) (sw : String) (rs : List (String × Int)) (ts : Int)
    (henc : r.word_encoded = some enc) (hcs : formatOutput p (some enc) = Except.ok cs)
    (hsw : r.secret_word = some sw) (hrs : r.rounds_scores = some rs)
    (hts : r.total_score = some ts) :
    handleResponseStatus st r p o a1 a2 a3 =
      andThen (renderResponse st 203
          { format_output := cs, secret_word := some sw, rounds_scores := some rs,
            total_score := some ts, remaining_attempts := some 0 })
        (fun s => endRoundSeq s o a1 a2 a3) := by
  rw [hrs_203_ok_eq st r p o a1 a2 a3 h enc cs henc hcs]
  simp only [h0, hsw, hrs, hts]
  rw [if_neg (by simp)]

/-- `__handle_response_status` on a 205 (restart) response: the stack is
cleared unconditionally. -/
theorem hrs_205_eq (st : ClientState) (r : ResponseData) (p : Option String) (o : EndOption)
    (a1 a2 a3 : ContinueAttempt) (h : r.status_code = 205) :
    handleResponseStatus st r p o a1 a2 a3 =
      { state := { st with words_stack := [] },
        events := [Event.printed "Jogo reiniciado com sucesso", Event.cleared],
        outcome := Outcome.normal } := by
  unfold handleResponseStatus
  simp only [h]
  rfl

/-! ## Stack lemmas for the round-boundary transitions -/

/-- Sequencing: a normal combined outcome means the first part was normal,
the final state is the second part's, and the second part ended normally. -/
theorem andThen_normal (x : StepOut) (f : ClientState → StepOut) :
    (andThen x f).outcome = Outcome.normal →
    x.outcome = Outcome.normal ∧
    (andThen x f).state = (f x.state).state ∧ (f x.state).outcome = Outcome.normal := by
  cases hx : x.outcome with
  | normal => intro h; simp [andThen, hx] at h ⊢; exact h
  | exited => intro h; rw [andThen, hx] at h; exact absurd h (by simp [hx] at h ⊢)
  | pyError m => intro h; rw [andThen, hx] at h; exact absurd h (by simp [hx] at h ⊢)

/-- A normally-completed 202 (win) render leaves the stack empty. -/
theorem hsc202_stack (st : ClientState) (e : ExtraInfo) :
    (handleSuccessfulCases st 202 e).outcome = Outcome.normal →
    (handleSuccessfulCases st 202 e).state.words_stack = [] := by
  rw [hsc202_eq]
  cases hra : returnAttempts e.remaining_attempts st.words_stack.length with
  | error e1 => intro h; exact absurd h (by simp)
  | ok att =>
    cases hrt : renderScoreTable e.rounds_scores with
    | error e2 => intro h; exact absurd h (by simp)
    | ok u => intro h; rfl

/-- A normally-completed 203 render with `remaining_attempts = 0` leaves
the stack empty. -/
theorem hsc203_stack (st : ClientState) (e : ExtraInfo)
    (h0 : e.remaining_attempts = some 0) :
    (handleSuccessfulCases st 203 e).outcome = Outcome.normal →
    (handleSuccessfulCases st 203 e).state.words_stack = [] := by
  rw [hsc203_eq]
  cases hra : returnAttempts e.remaining_attempts (st.words_stack.length + 1) with
  | error e1 => intro h; exact absurd h (by simp)
  | ok att =>
    dsimp only
    rw [if_pos h0]
    cases hsw : e.secret_word with
    | none => intro h; exact absurd h (by simp)
    | some sw =>
      cases hrt : renderScoreTable e.rounds_scores with
      | error e2 => intro h; exact absurd h (by simp)
      | ok u => intro h; rfl

/-- The renders issued during the continue exchange (only `player_name`
supplied) either keep the stack or empty it when they end normally. -/
theorem renderContinue_stack (st : ClientState) (s : Int) (u : Option String) :
    (renderResponse st s { player_name := u }).outcome = Outcome.normal →
    (renderResponse st s { player_name := u }).state.words_stack = st.words_stack ∨
    (renderResponse st s { player_name := u }).state.words_stack = [] := by
  unfold renderResponse
  split
  · unfold handleSuccessfulCases
    dsimp only
    simp only [returnAttempts]
    repeat' split
    all_goals intro h
    all_goals try exact Or.inl rfl
    all_goals try exact Or.inr rfl
    all_goals exact absurd h (by simp)
  · split
    · unfold handleErrorCases handleErrorCases.errWithAttempts
      dsimp only
      simp only [returnAttempts]
      repeat' split
      all_goals intro h
      all_goals try exact Or.inl rfl
      all_goals exact absurd h (by simp)
    · intro h
      exact Or.inl rfl

/-- A normally-completed continue exchange started with an empty stack ends
with an empty stack. -/
theorem gameContinuedAction_stack (st : ClientState) (a1 a2 a3 : ContinueAttempt)
    (hst : st.words_stack = []) :
    (gameContinuedAction st a1 a2 a3).outcome = Outcome.normal →
    (gameContinuedAction st a1 a2 a3).state.words_stack = [] := by
  cases a1 <;> cases a2 <;> cases a3 <;>
    simp only [gameContinuedAction, continueTry] <;>
    intro h <;>
    first
      | exact hst
      | (rcases renderContinue_stack st _ st.user_name h with h1 | h1 <;> simp_all)

/-- A normally-completed end-of-round sequence started with an empty stack
ends with an empty stack. -/
theorem endRoundSeq_stack (st : ClientState) (o : EndOption) (a1 a2 a3 : ContinueAttempt)
    (hst : st.words_stack = []) :
    (endRoundSeq st o a1 a2 a3).outcome = Outcome.normal →
    (endRoundSeq st o a1 a2 a3).state.words_stack = [] := by
  cases o with
  | quitGame => intro h; exact absurd h (by simp [endRoundSeq])
  | continueGame =>
    intro h
    simp only [endRoundSeq] at h ⊢
    exact gameContinuedAction_stack _ a1 a2 a3 hst h

/-! ## Claim C2 — word-history stack at round boundaries -/

/-- C2 counterexample: the state with `GameStatus = NO_GAME` and a
non-empty word-history stack is reachable — start a game (200), make one
incorrect guess (203 with 2 attempts left, which pushes the colorized
guess), then exit (201): the 201 handler sets `NO_GAME` but never clears
the stack, so the claimed invariant fails. -/
theorem c2_counterexample :
    Reachable { game_status := GameStatus.NO_GAME,
                words_stack := [some "\x1b[92ma\x1b[0m"],
                user_name := some "alice" } ∧
    ([some "\x1b[92ma\x1b[0m"] : List (Option String)) ≠ [] := by
  constructor
  · have h0 : Reachable { game_status := GameStatus.NO_GAME, words_stack := [],
                          user_name := some "alice" } := Reachable.init (some "alice")
    have h1 := Reachable.step _ { status_code := 200 } none EndOption.continueGame
      ContinueAttempt.oserror ContinueAttempt.oserror ContinueAttempt.oserror h0 (by decide)
    have h2 := Reachable.step _
      { status_code := 203, remaining_attempts := some 2, word_encoded := some [2] }
      (some "a") EndOption.continueGame
      ContinueAttempt.oserror ContinueAttempt.oserror ContinueAttempt.oserror h1 (by decide)
    have h3 := Reachable.step _ { status_code := 201 } none EndOption.continueGame
      ContinueAttempt.oserror ContinueAttempt.oserror ContinueAttempt.oserror h2 (by decide)
    exact h3
  · simp

/-- C2 (amended): the stack is empty after every *normally completed*
round-boundary handling — win (202), loss (203 with `remaining_attempts`
= 0) and restart (205, unconditionally) — but the exit transition (201),
which sets `GameStatus` to `NO_GAME`, does *not* clear the stack: the
stack survives unchanged, so the stack may be non-empty outside
`GAME_IN_PROGRESS`. -/
theorem c2_stack_boundaries (st : ClientState) (r : ResponseData) (p : Option String)
    (o : EndOption) (a1 a2 a3 : ContinueAttempt) :
    (r.status_code = 202 →
      (handleResponseStatus st r p o a1 a2 a3).outcome = Outcome.normal →
      (handleResponseStatus st r p o a1 a2 a3).state.words_stack = []) ∧
    (r.status_code = 203 → r.remaining_attempts = some 0 →
      (handleResponseStatus st r p o a1 a2 a3).outcome = Outcome.normal →
      (handleResponseStatus st r p o a1 a2 a3).state.words_stack = []) ∧
    (r.status_code = 205 →
      (handleResponseStatus st r p o a1 a2 a3).state.words_stack = []) ∧
    (r.status_code = 201 →
      (handleResponseStatus st r p o a1 a2 a3).state.words_stack = st.words_stack ∧
      (handleResponseStatus st r p o a1 a2 a3).state.game_status = GameStatus.NO_GAME ∧
      (handleResponseStatus st r p o a1 a2 a3).outcome = Outcome.normal) := by
  refine ⟨?_, ?_, ?_, ?_⟩
  · intro h202 hnorm
    rw [hrs_202_eq st r p o a1 a2 a3 h202] at hnorm ⊢
    cases hrsc : r.rounds_scores with
    | none =>
      rw [hrsc] at hnorm
      exact absurd hnorm (by simp)
    | some rs =>
      cases hts : r.total_score with
      | none =>
        rw [hrsc, hts] at hnorm
        exact absurd hnorm (by simp)
      | some ts =>
        rw [hrsc, hts] at hnorm
        dsimp only at hnorm ⊢
        obtain ⟨hA, hstate, hB⟩ := andThen_normal _ _ hnorm
        have hA2 : (handleSuccessfulCases st 202
            { remaining_attempts := r.remaining_attempts, rounds_scores := some rs,
              total_score := some ts }).outcome = Outcome.normal := hA
        rw [hstate]
        exact endRoundSeq_stack _ o a1 a2 a3 (hsc202_stack st _ hA2) hB
  · intro h203 h0 hnorm
    cases hwe : r.word_encoded with
    | none =>
      rw [hrs_203_noenc st r p o a1 a2 a3 h203 hwe] at hnorm
      exact absurd hnorm (by simp)
    | some enc =>
      cases hfo : formatOutput p (some enc) with
      | error e =>
        rw [hrs_203_errfmt st r p o a1 a2 a3 h203 enc e hwe hfo] at hnorm
        exact absurd hnorm (by simp)
      | ok cs =>
        rw [hrs_203_ok_eq st r p o a1 a2 a3 h203 enc cs hwe hfo, h0,
          if_neg (by simp)] at hnorm ⊢
        cases hsw : r.secret_word with
        | none =>
          rw [hsw] at hnorm
          exact absurd hnorm (by simp)
        | some sw =>
          cases hrsc : r.rounds_scores with
          | none =>
            rw [hsw, hrsc] at hnorm
            exact absurd hnorm (by simp)
          | some rs =>
            cases hts : r.total_score with
            | none =>
              rw [hsw, hrsc, hts] at hnorm
              exact absurd hnorm (by simp)
            | some ts =>
              rw [hsw, hrsc, hts] at hnorm
              dsimp only at hnorm ⊢
              obtain ⟨hA, hstate, hB⟩ := andThen_normal _ _ hnorm
              have hA2 : (handleSuccessfulCases st 203
                  { format_output := cs, secret_word := some sw, rounds_scores := some rs,
                    total_score := some ts,
                    remaining_attempts := some 0 }).outcome = Outcome.normal := hA
              rw [hstate]
              exact endRoundSeq_stack _ o a1 a2 a3 (hsc203_stack st _ rfl hA2) hB
  · intro h205
    rw [hrs_205_eq st r p o a1 a2 a3 h205]
  · intro h201
    rw [hrs_201_eq st r p o a1 a2 a3 h201]
    exact ⟨rfl, rfl, rfl⟩

/-- C2 witness: a 205 (restart) response empties a non-empty stack. -/
theorem c2_witness :
    (({ status_code := 205 } : ResponseData).status_code = 205) ∧
    (handleResponseStatus
        { game_status := GameStatus.GAME_IN_PROGRESS, words_stack := [some "x", some "y"],
          user_name := some "alice" }
        { status_code := 205 } none EndOption.continueGame
        ContinueAttempt.oserror ContinueAttempt.oserror
        ContinueAttempt.oserror).state.words_stack = [] :=
  ⟨rfl,
   (c2_stack_boundaries
      { game_status := GameStatus.GAME_IN_PROGRESS, words_stack := [some "x", some "y"],
        user_name := some "alice" }
      { status_code := 205 } none EndOption.continueGame
      ContinueAttempt.oserror ContinueAttempt.oserror
      ContinueAttempt.oserror).2.2.1 rfl⟩

/-! ## Claim C9 — 203 end-of-round trigger -/

/-- C9: for a status-203 response the end-of-round sequence (stack clear,
secret-word reveal, score table, end-of-round prompt) runs iff
`remaining_attempts` is present and equals 0: an absent value compares
unequal to 0 (Python `None != 0` is true), so the controller takes the
round-not-over branch, pushes the colorized guess, and never shows the
prompt. -/
theorem c9_end_of_round (st : ClientState) (ra : Option Int) (enc : List Int)
    (osw : Option String) (ors : Option (List (String × Int))) (ots : Option Int)
    (p : Option String) (o : EndOption) (a1 a2 a3 : ContinueAttempt) :
    (∀ cs, formatOutput p (some enc) = Except.ok cs → ra = none →
      (handleResponseStatus st (resp203 ra enc osw ors ots) p o a1 a2 a3).state.words_stack =
        cs :: st.words_stack ∧
      Event.pushed cs ∈
        (handleResponseStatus st (resp203 ra enc osw ors ots) p o a1 a2 a3).events ∧
      Event.endRoundPrompt ∉
        (handleResponseStatus st (resp203 ra enc osw ors ots) p o a1 a2 a3).events) ∧
    (ra ≠ some 0 →
      Event.endRoundPrompt ∉
        (handleResponseStatus st (resp203 ra enc osw ors ots) p o a1 a2 a3).events) ∧
    (∀ cs sw rs ts, formatOutput p (some enc) = Except.ok cs → ra = some 0 →
      osw = some sw → ors = some rs → ots = some ts →
      ∃ rest,
        (handleResponseStatus st (resp203 ra enc osw ors ots) p o a1 a2 a3).events =
          [Event.pushed cs,
           Event.printed (incorrectMsg cs ("Tentativas Restantes: " ++ toString (0 : Int))),
           Event.cleared, Event.reveal sw, Event.scoreTable, Event.endRoundPrompt] ++ rest) := by
  refine ⟨?_, ?_, ?_⟩
  · intro cs hcs hra
    subst hra
    rw [hrs_203_ok_eq st (resp203 none enc osw ors ots) p o a1 a2 a3 rfl enc cs rfl hcs]
    rw [if_pos (show (resp203 none enc osw ors ots).remaining_attempts ≠ some 0 by simp [resp203])]
    rw [render203_eq, hsc203_eq]
    refine ⟨rfl, ?_, ?_⟩ <;> simp [returnAttempts, resp203]
  · intro hra
    cases hfo : formatOutput p (some enc) with
    | error e =>
      rw [hrs_203_errfmt st (resp203 ra enc osw ors ots) p o a1 a2 a3 rfl enc e rfl hfo]
      simp
    | ok cs =>
      rw [hrs_203_ok_eq st (resp203 ra enc osw ors ots) p o a1 a2 a3 rfl enc cs rfl hfo]
      rw [if_pos (show (resp203 ra enc osw ors ots).remaining_attempts ≠ some 0 from hra)]
      exact prompt_not_in_render st 203 _
  · intro cs sw rs ts hcs hra hsw hrs hts
    subst hra; subst hsw; subst hrs; subst hts
    rw [hrs_203_eq0 st (resp203 (some 0) enc (some sw) (some rs) (some ts)) p o a1 a2 a3
      rfl rfl enc cs sw rs ts rfl hcs rfl rfl rfl]
    have hA : renderResponse st 203
        { format_output := cs, secret_word := some sw, rounds_scores := some rs,
          total_score := some ts, remaining_attempts := some 0 } =
        { state := { st with words_stack := [] },
          events := [Event.pushed cs,
                     Event.printed
                       (incorrectMsg cs ("Tentativas Restantes: " ++ toString (0 : Int))),
                     Event.cleared, Event.reveal sw, Event.scoreTable],
          outcome := Outcome.normal } := rfl
    rw [hA]
    cases o <;> exact ⟨_, rfl⟩

/-- C9 witness: a 203 response with `remaining_attempts` absent pushes the
colorized guess and does not prompt. -/
theorem c9_witness :
    formatOutput (some "a") (some [2]) = Except.ok (some "\x1b[92ma\x1b[0m") ∧
    (handleResponseStatus
        { game_status := GameStatus.GAME_IN_PROGRESS, words_stack := [],
          user_name := some "alice" }
        (resp203 none [2] none none none) (some "a") EndOption.continueGame
        ContinueAttempt.oserror ContinueAttempt.oserror
        ContinueAttempt.oserror).state.words_stack =
      some "\x1b[92ma\x1b[0m" :: [] ∧
    Event.endRoundPrompt ∉
      (handleResponseStatus
        { game_status := GameStatus.GAME_IN_PROGRESS, words_stack := [],
          user_name := some "alice" }
        (resp203 none [2] none none none) (some "a") EndOption.continueGame
        ContinueAttempt.oserror ContinueAttempt.oserror
        ContinueAttempt.oserror).events := by
  have h := (c9_end_of_round
      { game_status := GameStatus.GAME_IN_PROGRESS, words_stack := [],
        user_name := some "alice" } none [2] none none none (some "a") EndOption.continueGame
      ContinueAttempt.oserror ContinueAttempt.oserror ContinueAttempt.oserror).1
      (some "\x1b[92ma\x1b[0m") rfl rfl
  exact ⟨rfl, h.1, h.2.2⟩

end Termo
